import Mathlib

/-!
# Verification of the sprint risk summary core (`mondaymain.py`)

Shallow embedding of the decision core of the repository's single source
file: the field normalizer (`norm`, `parse_people`, `parse_date_text`,
`parse_timeline_value`), the per-item risk rule evaluator (`item_risk`)
and the sprint aggregator / timeline deriver (`build_context`).

Conventions of the embedding:
* Python `date` objects are a `Date` structure (year/month/day);
  comparison and subtraction go through `Date.toOrdinal`, which is the
  proleptic-Gregorian day count of Python's `date.toordinal` (`_ymd2ord`).
* JSON values decoded by `json.loads` are the inductive `Json`; a raw
  column `value` is `Option Json`, where `none` stands for an
  empty/missing payload or a payload on which `json.loads` itself fails
  (both behave identically in every consumer: the surrounding
  `try/except` degrades to the empty result).
* Python exceptions that escape to a caller are modelled with `Option`
  result types (`none` = the call raised); functions whose exceptions
  are swallowed internally are total.
* String manipulation is carried out on `List Char` (a Lean `String` is
  its list of characters), so that every definition evaluates by kernel
  reduction.
-/

/-! ## Characters and strings -/

/-- Membership test of a string in a list of strings, modelling the
Python `in` test against the alias sets. -/
def strMem (s : String) (l : List String) : Bool :=
  l.any (fun t => decide (t = s))

/-- Whether `needle` occurs at the start of `hay`. -/
def listStarts : List Char → List Char → Bool
  | [], _ => true
  | _ :: _, [] => false
  | a :: as, b :: bs => a == b && listStarts as bs

/-- Whether `needle` occurs contiguously anywhere in `hay`, modelling
the Python substring test `needle in hay`. -/
def listHasSub (needle : List Char) : List Char → Bool
  | [] => needle.isEmpty
  | c :: cs => listStarts needle (c :: cs) || listHasSub needle cs

/-- Python `needle in hay` on strings. -/
def strContains (hay needle : String) : Bool :=
  listHasSub needle.toList hay.toList

/-- Python `str.strip()` (whitespace from both ends). -/
def stripChars (cs : List Char) : List Char :=
  ((cs.dropWhile Char.isWhitespace).reverse.dropWhile Char.isWhitespace).reverse

/-- `norm` from the source: `(s or "").strip().lower()`, applied to a
possibly-null rendered text. -/
def pyNorm (s : Option String) : String :=
  String.mk ((stripChars (s.getD "").toList).map Char.toLower)

/-- Decimal rendering of a `Nat` (units of `str(...)`), with fuel for
structural recursion; the fuel `n + 1` always suffices. -/
def natDigitsAux : Nat → Nat → List Char → List Char
  | 0, _, acc => acc
  | fuel + 1, n, acc =>
    let d := Char.ofNat (48 + n % 10)
    if n < 10 then d :: acc else natDigitsAux fuel (n / 10) (d :: acc)

/-- Decimal rendering of a `Nat`. -/
def natToStr (n : Nat) : String :=
  String.mk (natDigitsAux (n + 1) n [])

/-- Decimal rendering of an `Int`. -/
def intToStr (n : Int) : String :=
  if n < 0 then String.mk ('-' :: (natToStr n.natAbs).toList) else natToStr n.natAbs

/-- Parse a non-empty all-digit character list as a `Nat` (the digit
groups of `%Y-%m-%d`). -/
def digitsToNat? (cs : List Char) : Option Nat :=
  if cs.isEmpty then none
  else if cs.all Char.isDigit then
    some (cs.foldl (fun n c => n * 10 + (c.toNat - 48)) 0)
  else none

/-- Split a character list on `'-'`, keeping empty groups (the shape of
matching against the `%Y-%m-%d` format). -/
def splitDash : List Char → List (List Char)
  | [] => [[]]
  | c :: cs =>
    if c = '-' then [] :: splitDash cs
    else match splitDash cs with
      | g :: gs => (c :: g) :: gs
      | [] => [[c]]

/-! ## Dates (Python `datetime.date`) -/

/-- A calendar date, as produced by `datetime.strptime(..., "%Y-%m-%d").date()`.
The parser only constructs dates with `1 ≤ year ≤ 9999` and a valid
month/day, mirroring Python's `date` invariants. -/
structure Date where
  year : Nat
  month : Nat
  day : Nat
deriving Repr, DecidableEq

/-- Gregorian leap-year test, as in Python's `calendar.isleap`. -/
def isLeap (y : Nat) : Bool :=
  y % 4 == 0 && (y % 100 != 0 || y % 400 == 0)

/-- Days in the given month, as in Python's `_days_in_month`. -/
def daysInMonth (y m : Nat) : Nat :=
  if m = 2 then (if isLeap y then 29 else 28)
  else if m == 4 || m == 6 || m == 9 || m == 11 then 30
  else 31

/-- Cumulative day count before month `m` of year `y`
(Python's `_days_before_month`). -/
def daysBeforeMonth (y m : Nat) : Nat :=
  [0, 31, 59, 90, 120, 151, 181, 212, 243, 273, 304, 334].getD (m - 1) 0
    + (if 2 < m && isLeap y then 1 else 0)

/-- Python's `date.toordinal` (`_ymd2ord`): day number with
0001-01-01 ↦ 1.  Date comparison and date subtraction in the source both
reduce to this ordinal. -/
def Date.toOrdinal (dt : Date) : Nat :=
  365 * (dt.year - 1) + (dt.year - 1) / 4 - (dt.year - 1) / 100
    + (dt.year - 1) / 400 + daysBeforeMonth dt.year dt.month + dt.day

/-- `a < b` on Python dates (chronological order). -/
def dateLt (a b : Date) : Bool :=
  decide (a.toOrdinal < b.toOrdinal)

/-- `(a - b).days` on Python dates. -/
def daysDiff (a b : Date) : Int :=
  (a.toOrdinal : Int) - (b.toOrdinal : Int)

/-- Left-pad a numeral with zeros, for `date.isoformat`. -/
def padNum (width n : Nat) : String :=
  let s := natToStr n
  String.mk (List.replicate (width - s.length) '0' ++ s.toList)

/-- Python's `date.isoformat()`: `YYYY-MM-DD`. -/
def Date.isoformat (dt : Date) : String :=
  String.mk ((padNum 4 dt.year).toList ++ '-' :: (padNum 2 dt.month).toList
    ++ '-' :: (padNum 2 dt.day).toList)

/-- Core of `datetime.strptime(text, "%Y-%m-%d")` on the first 10
characters of a string (the source always slices with `[:10]` first).
CPython's `_strptime` matches `%Y` as exactly four digits and `%m`/`%d`
as one or two digits, requires the whole (sliced) string to be consumed,
and the `date` constructor then enforces `MINYEAR = 1` and calendar
validity; any failure raises, which callers turn into `none`. -/
def parse_ymd (text : String) : Option Date :=
  match splitDash (text.toList.take 10) with
  | [ys, ms, ds] =>
    if ys.length = 4 ∧ (ms.length = 1 ∨ ms.length = 2) ∧ (ds.length = 1 ∨ ds.length = 2) then
      match digitsToNat? ys, digitsToNat? ms, digitsToNat? ds with
      | some y, some m, some d =>
        if 1 ≤ y ∧ 1 ≤ m ∧ m ≤ 12 ∧ 1 ≤ d ∧ d ≤ daysInMonth y m then
          some ⟨y, m, d⟩
        else none
      | _, _, _ => none
    else none
  | _ => none

/-- `parse_date_text` from the source: empty text is `None`, otherwise
strptime on the first 10 characters, `None` on failure. -/
def parse_date_text (text : String) : Option Date :=
  if text = "" then none else parse_ymd text

/-! ## JSON values (outputs of `json.loads`) -/

/-- A decoded JSON value.  Numbers are modelled as integers (the only
numeric payloads the source consumes are integral assignee ids). -/
inductive Json where
  | null
  | bool (b : Bool)
  | num (n : Int)
  | str (s : String)
  | arr (xs : List Json)
  | obj (kvs : List (String × Json))

/-- Python truthiness of a decoded JSON value (used by the `or` chains
and the `if sd:` guards in the source). -/
def Json.truthy : Json → Bool
  | .null => false
  | .bool b => b
  | .num n => n != 0
  | .str s => s != ""
  | .arr xs => !xs.isEmpty
  | .obj kvs => !kvs.isEmpty

/-- `dict.get` on a decoded JSON object (`none` = key absent, i.e.
Python `None`).  Duplicate keys follow `json.loads`: the last wins. -/
def pyGet (kvs : List (String × Json)) (k : String) : Option Json :=
  (kvs.reverse.find? (fun kv => decide (kv.fst = k))).map (fun kv => kv.snd)

/-- A Python `a or b or ...` chain over `dict.get` results: the first
truthy value, else the last operand unchanged (which the callers only
ever test for truthiness again). -/
def orChain : List (Option Json) → Option Json
  | [] => none
  | [x] => x
  | x :: rest =>
    match x with
    | some j => if j.truthy then some j else orChain rest
    | none => orChain rest

/-- `str(...)` on a scalar id value.  Composite values (which cannot be
real assignee ids; only the emptiness of the resulting list is ever
consumed) are rendered with a placeholder. -/
def pyStr : Json → String
  | .str s => s
  | .num n => intToStr n
  | .bool b => if b then "True" else "False"
  | .null => "None"
  | .arr _ => "<list>"
  | .obj _ => "<dict>"

/-- `parse_people` from the source: extract assignee ids from a people
column payload.  Any exception inside the `try` (non-dict payload,
non-list `personsAndTeams`, non-dict list element) degrades to `[]`. -/
def parse_people (v : Option Json) : List String :=
  match v with
  | none => []
  | some j =>
    match j with
    | .obj kvs =>
      let arr := orChain [pyGet kvs "personsAndTeams", pyGet kvs "personsAndTeamsV2"]
      let arrJ : Json :=
        match arr with
        | some a => if a.truthy then a else .arr []
        | none => .arr []
      match arrJ with
      | .arr ps =>
        if ps.all (fun p => match p with | .obj _ => true | _ => false) then
          ps.filterMap (fun p =>
            match p with
            | .obj pk =>
              match pyGet pk "id" with
              | some .null => none
              | some idj => some (pyStr idj)
              | none => none
            | _ => none)
        else []
      | _ => []
    | _ => []

/-! ## `parse_timeline_value` -/

/-- The `or` chain for the range-start bound:
`v.get("from") or v.get("startDate") or v.get("start_date")`. -/
def startJson (kvs : List (String × Json)) : Option Json :=
  orChain [pyGet kvs "from", pyGet kvs "startDate", pyGet kvs "start_date"]

/-- The `or` chain for the range-end bound:
`v.get("to") or v.get("endDate") or v.get("end_date")`. -/
def endJson (kvs : List (String × Json)) : Option Json :=
  orChain [pyGet kvs "to", pyGet kvs "endDate", pyGet kvs "end_date"]

/-- One bound of `parse_timeline_value`:
`datetime.strptime(sd[:10], "%Y-%m-%d").date() if sd else None`.
Outer `none` = the expression raised (strptime failure, or slicing a
truthy non-string); `some none` = the bound is falsy, giving `None`
without raising. -/
def parseBound (sd : Option Json) : Option (Option Date) :=
  match sd with
  | none => some none
  | some j =>
    if j.truthy then
      match j with
      | .str s =>
        match parse_ymd s with
        | some d => some (some d)
        | none => none
      | _ => none
    else some none

/-- `parse_timeline_value` from the source.  The whole body sits in one
`try/except` returning `(None, None)`, so a raise while parsing either
bound discards both bounds. -/
def parse_timeline_value (v : Option Json) : Option Date × Option Date :=
  match v with
  | none => (none, none)
  | some j =>
    match j with
    | .obj kvs =>
      match parseBound (startJson kvs), parseBound (endJson kvs) with
      | some s, some e => (s, e)
      | _, _ => (none, none)
    | _ => (none, none)

example : parse_ymd "2025-11-03" = some ⟨2025, 11, 3⟩ := by decide
example : parse_ymd "garbage" = none := by decide
example :
    parse_timeline_value
      (some (Json.obj [("from", Json.str "2025-11-03"), ("to", Json.str "2025-11-19")]))
      = (some ⟨2025, 11, 3⟩, some ⟨2025, 11, 19⟩) := by decide
example :
    parse_timeline_value
      (some (Json.obj [("from", Json.str "2025-11-03"), ("to", Json.str "garbage")]))
      = (none, none) := by decide
example : pyNorm (some " Done ") = "done" := by decide
example : (Date.isoformat ⟨2025, 11, 3⟩) = "2025-11-03" := by decide
example : parse_date_text (Date.isoformat ⟨2025, 11, 22⟩) = some ⟨2025, 11, 22⟩ := by decide

/-! ## Items, board configuration, and the risk rule evaluator -/

/-- One entry of an item's `column_values` (GraphQL always supplies the
keys; `text` and `value` may be null). -/
structure ColumnValue where
  id : String
  text : Option String
  value : Option Json

/-- A raw board item as consumed by `item_risk`. -/
structure Item where
  id : String
  name : String
  column_values : List ColumnValue

/-- The resolved column ids (the `*_COL_ID` globals); `none` models a
column title that `find_column_id_by_titles` did not find. -/
structure Config where
  PRIORITY_COL_ID : Option String
  PRODUCT_STATUS_COL_ID : Option String
  DESIGN_STATUS_COL_ID : Option String
  DEV_STATUS_COL_ID : Option String
  PRODUCT_OWNER_COL_ID : Option String
  DESIGNER_COL_ID : Option String
  DEVELOPER_COL_ID : Option String
  TIMELINE_COL_ID : Option String

/-- `DONE_STATUS_ALIASES` from the source. -/
def DONE_STATUS_ALIASES : List String := ["done", "complete", "released"]

/-- `BLOCKED_ALIASES` from the source. -/
def BLOCKED_ALIASES : List String := ["blocked", "stuck"]

/-- Python truthiness of an optional column id (the `if COL_ID` guards). -/
def optTruthy : Option String → Bool
  | none => false
  | some s => s != ""

/-- `cv_lookup` from the source: the `{c["id"]: c}` dict (last entry
wins on duplicate ids, as in a Python dict comprehension). -/
def cv_lookup (item : Item) (cid : String) : Option ColumnValue :=
  item.column_values.reverse.find? (fun c => decide (c.id = cid))

/-- `status_norm` from the source:
`norm(cv.get(col_id, {}).get("text") if col_id else "")`. -/
def status_norm (item : Item) (colId : Option String) : String :=
  match colId with
  | some cid => if cid ≠ "" then pyNorm ((cv_lookup item cid).bind (fun c => c.text)) else pyNorm none
  | none => pyNorm none

/-- The raw `value` payload of a column, as fetched in `item_risk`:
`cv.get(COL_ID, {}).get("value") if COL_ID else ""` (the empty-string
fallback behaves as an absent payload in both payload parsers). -/
def col_value (item : Item) (colId : Option String) : Option Json :=
  match colId with
  | some cid => if cid ≠ "" then (cv_lookup item cid).bind (fun c => c.value) else none
  | none => none

/-- The three normalized track statuses `[product, design, dev]`
(`track_statuses` in `item_risk`). -/
def track_statuses_of (cfg : Config) (item : Item) : List String :=
  [status_norm item cfg.PRODUCT_STATUS_COL_ID,
   status_norm item cfg.DESIGN_STATUS_COL_ID,
   status_norm item cfg.DEV_STATUS_COL_ID]

/-- The normalized priority text. -/
def priority_of (cfg : Config) (item : Item) : String :=
  status_norm item cfg.PRIORITY_COL_ID

/-- `tl_end` in `item_risk`: the end bound of the timeline payload. -/
def tl_end_of (cfg : Config) (item : Item) : Option Date :=
  (parse_timeline_value (col_value item cfg.TIMELINE_COL_ID)).snd

/-- `any(s in DONE_STATUS_ALIASES for s in track_statuses)`: the "some
track status is a done-alias" test shared by the three timeline
predicates of `item_risk`. -/
def any_done (cfg : Config) (item : Item) : Bool :=
  (track_statuses_of cfg item).any (fun s => strMem s DONE_STATUS_ALIASES)

/-- Predicate 1 of `item_risk`: blocked/stuck in any track. -/
def blocked_cond (cfg : Config) (item : Item) : Bool :=
  (track_statuses_of cfg item).any (fun s => strMem s BLOCKED_ALIASES)

/-- Predicates 2-4 of `item_risk`: `COL_ID and not ids`. -/
def missing_role_cond (colId : Option String) (ids : List String) : Bool :=
  optTruthy colId && ids.isEmpty

/-- Predicate 5 of `item_risk`:
`tl_end and tl_end < today and not any(s in DONE_STATUS_ALIASES ...)`. -/
def overdue_cond (cfg : Config) (today : Date) (item : Item) : Bool :=
  (match tl_end_of cfg item with
   | some e => dateLt e today
   | none => false) && !any_done cfg item

/-- Predicate 6 of `item_risk`:
`tl_end and (tl_end - today).days <= 3 and not any(...)`. -/
def near_due_cond (cfg : Config) (today : Date) (item : Item) : Bool :=
  (match tl_end_of cfg item with
   | some e => decide (daysDiff e today ≤ 3)
   | none => false) && !any_done cfg item

/-- Predicate 7 of `item_risk`:
`"high" in priority_text and tl_end and (tl_end - today).days <= 3 and not any(...)`. -/
def high_near_cond (cfg : Config) (today : Date) (item : Item) : Bool :=
  strContains (priority_of cfg item) "high" &&
  (match tl_end_of cfg item with
   | some e => decide (daysDiff e today ≤ 3)
   | none => false) && !any_done cfg item

/-- The `reasons` list of `item_risk`, built by the seven predicates in
their fixed source order. -/
def reasons_of (cfg : Config) (today : Date) (item : Item) : List String :=
  (if blocked_cond cfg item then ["blocked/stuck in one or more tracks"] else [])
  ++ (if missing_role_cond cfg.PRODUCT_OWNER_COL_ID
        (parse_people (col_value item cfg.PRODUCT_OWNER_COL_ID)) then
        ["missing Product owner"] else [])
  ++ (if missing_role_cond cfg.DESIGNER_COL_ID
        (parse_people (col_value item cfg.DESIGNER_COL_ID)) then
        ["missing Designer"] else [])
  ++ (if missing_role_cond cfg.DEVELOPER_COL_ID
        (parse_people (col_value item cfg.DEVELOPER_COL_ID)) then
        ["missing Developer"] else [])
  ++ (if overdue_cond cfg today item then ["timeline end passed"] else [])
  ++ (if near_due_cond cfg today item then ["near due (≤3 days) and not done"] else [])
  ++ (if high_near_cond cfg today item then ["high priority near due and not done"] else [])

/-- The record returned by `item_risk`. -/
structure RiskAssessment where
  id : String
  name : String
  product_status : String
  design_status : String
  dev_status : String
  priority : String
  timeline_end : String
  reasons : List String
  risky : Bool
deriving Repr, DecidableEq

/-- `item_risk` from the source: normalize the item's fields, evaluate
the seven risk predicates in order, and return the assessment record
(`timeline_end` is re-rendered with `isoformat`, or empty). -/
def item_risk (cfg : Config) (today : Date) (item : Item) : RiskAssessment :=
  { id := item.id
    name := item.name
    product_status := status_norm item cfg.PRODUCT_STATUS_COL_ID
    design_status := status_norm item cfg.DESIGN_STATUS_COL_ID
    dev_status := status_norm item cfg.DEV_STATUS_COL_ID
    priority := priority_of cfg item
    timeline_end :=
      match tl_end_of cfg item with
      | some e => e.isoformat
      | none => ""
    reasons := reasons_of cfg today item
    risky := !(reasons_of cfg today item).isEmpty }

/-! ## The sprint aggregator (`build_context`) -/

/-- `done_all` from `build_context`: all *non-empty* track statuses are
done-aliases, and at least one status is present. -/
def done_all (r : RiskAssessment) : Bool :=
  let statuses := [r.product_status, r.design_status, r.dev_status]
  let present := statuses.filter (fun s => s != "")
  if present.isEmpty then false
  else present.all (fun s => strMem s DONE_STATUS_ALIASES)

/-- The entry appended to `late_items` for a late, not-done item. -/
structure LateItem where
  id : String
  name : String
  timeline_end : String
  product_status : String
  design_status : String
  dev_status : String
deriving Repr, DecidableEq

/-- Projection of an assessment to its `late_items` entry. -/
def lateEntry (r : RiskAssessment) : LateItem :=
  ⟨r.id, r.name, r.timeline_end, r.product_status, r.design_status, r.dev_status⟩

/-- The `late_items` loop of `build_context`: skip an empty
`timeline_end`, skip an unparseable one, keep items whose end is
strictly before today and which are not `done_all`. -/
def late_items_of (today : Date) (items : List RiskAssessment) : List LateItem :=
  items.filterMap (fun r =>
    if r.timeline_end = "" then none
    else
      match parse_date_text r.timeline_end with
      | none => none
      | some d => if dateLt d today && !done_all r then some (lateEntry r) else none)

/-- `tl_dates` of `build_context`:
`[parse_date_text(r["timeline_end"]) for r in items if r["timeline_end"]]`
(entries can be `none` if a non-empty `timeline_end` fails to parse). -/
def tl_dates_of (items : List RiskAssessment) : List (Option Date) :=
  (items.filter (fun r => r.timeline_end != "")).map (fun r => parse_date_text r.timeline_end)

/-- Python `max` folding step over optional dates: comparing `None`
with anything raises `TypeError` (outer `none`). -/
def pyMaxFold : Option Date → List (Option Date) → Option (Option Date)
  | cur, [] => some cur
  | some c, some d :: rest => pyMaxFold (some (if dateLt c d then d else c)) rest
  | _, _ :: _ => none

/-- Python `max` over a non-empty list of optional dates: `some` of the
maximum if no comparison involves `None` (a singleton list is returned
without any comparison), `none` if `max` raises `TypeError`. -/
def pyMax? : List (Option Date) → Option (Option Date)
  | [] => none
  | x :: rest => pyMaxFold x rest

/-- The four-way timeline verdict of `build_context` (source lines
415-425), as a function of the inferred sprint end, today, and the
done/total counters. -/
def sprint_timeline_status (sprint_end : Option Date) (today : Date)
    (done_items total_items : Nat) : String :=
  match sprint_end with
  | none => "unknown"
  | some se =>
    if dateLt today se then "ongoing"
    else if done_items = total_items ∧ 0 < total_items then "met"
    else "missed"

/-- The `stats` block of the context. -/
structure Stats where
  total_items : Nat
  risky_items : Nat
  done_items : Nat
  blocked_items : Nat
  high_priority : Nat
deriving Repr, DecidableEq

/-- The `timeline` block of the context. -/
structure TimelineBlock where
  sprint_end : String
  status : String
  late_items : List LateItem
deriving Repr, DecidableEq

/-- The context object returned by `build_context`. -/
structure SprintContext where
  sprint_group : String
  stats : Stats
  top_risks : List RiskAssessment
  timeline : TimelineBlock
deriving Repr, DecidableEq

/-- `sprint_end = max(tl_dates) if tl_dates else None` from
`build_context`: `some none` for an empty list, and otherwise whatever
`max` yields (its outer `none` = a raised `TypeError`). -/
def sprint_end_guard (tl : List (Option Date)) : Option (Option Date) :=
  if tl.isEmpty then some none else pyMax? tl

/-- `build_context` from the source.  The outer `Option` models the one
way the function can raise: `max(tl_dates)` throws `TypeError` when a
`None` entry (a non-empty but unparseable `timeline_end`) is compared
with another entry. -/
def build_context (sprint_group_title : String) (today : Date)
    (items_assessed risks_list : List RiskAssessment) : Option SprintContext :=
  match sprint_end_guard (tl_dates_of items_assessed) with
  | none => none
  | some sprint_end =>
    some
      { sprint_group := sprint_group_title
        stats :=
          { total_items := items_assessed.length
            risky_items := risks_list.length
            done_items := items_assessed.countP (fun r => done_all r)
            blocked_items := items_assessed.countP (fun r =>
              [r.product_status, r.design_status, r.dev_status].any
                (fun s => strMem s BLOCKED_ALIASES))
            high_priority := items_assessed.countP (fun r => strContains r.priority "high") }
        top_risks := risks_list.take 10
        timeline :=
          { sprint_end :=
              match sprint_end with
              | some se => se.isoformat
              | none => ""
            status := sprint_timeline_status sprint_end today
              (items_assessed.countP (fun r => done_all r)) items_assessed.length
            late_items := late_items_of today items_assessed } }

/-! ## Concrete fixtures

Board configurations and items used by the scenario theorem, the
witnesses and the counterexamples. -/

/-- 2025-11-20, the "today" of the scenario. -/
def d1120 : Date := ⟨2025, 11, 20⟩

/-- A people payload with one assignee id, as Monday sends it. -/
def onePerson : Json :=
  Json.obj [("personsAndTeams", Json.arr [Json.obj [("id", Json.num 123)]])]

/-- A timeline payload ending on the given ISO date string. -/
def tlPayload (fromS toS : String) : Json :=
  Json.obj [("from", Json.str fromS), ("to", Json.str toS)]

/-- Board configuration with only the status/priority/timeline columns
resolved; no role (people) columns are configured. -/
def cfgNoRoles : Config :=
  { PRIORITY_COL_ID := some "priority"
    PRODUCT_STATUS_COL_ID := some "pstat"
    DESIGN_STATUS_COL_ID := some "dstat"
    DEV_STATUS_COL_ID := some "devstat"
    PRODUCT_OWNER_COL_ID := none
    DESIGNER_COL_ID := none
    DEVELOPER_COL_ID := none
    TIMELINE_COL_ID := some "tl" }

/-- Board configuration with every relevant column resolved. -/
def cfgFull : Config :=
  { PRIORITY_COL_ID := some "priority"
    PRODUCT_STATUS_COL_ID := some "pstat"
    DESIGN_STATUS_COL_ID := some "dstat"
    DEV_STATUS_COL_ID := some "devstat"
    PRODUCT_OWNER_COL_ID := some "po"
    DESIGNER_COL_ID := some "des"
    DEVELOPER_COL_ID := some "dev"
    TIMELINE_COL_ID := some "tl" }

/-- Scenario item A: dev status "stuck", nothing else. -/
def itemA : Item :=
  { id := "1", name := "A"
    column_values := [⟨"devstat", some "stuck", none⟩] }

/-- Scenario item B: all roles assigned, every track status "done",
timeline ending 2025-11-15. -/
def itemB : Item :=
  { id := "2", name := "B"
    column_values :=
      [⟨"pstat", some "Done", none⟩,
       ⟨"dstat", some "done", none⟩,
       ⟨"devstat", some "Done", none⟩,
       ⟨"po", none, some onePerson⟩,
       ⟨"des", none, some onePerson⟩,
       ⟨"dev", none, some onePerson⟩,
       ⟨"tl", none, some (tlPayload "2025-11-01" "2025-11-15")⟩] }

/-- Scenario item C: priority "High", empty track statuses, all roles
assigned, timeline ending 2025-11-22. -/
def itemC : Item :=
  { id := "3", name := "C"
    column_values :=
      [⟨"priority", some "High", none⟩,
       ⟨"po", none, some onePerson⟩,
       ⟨"des", none, some onePerson⟩,
       ⟨"dev", none, some onePerson⟩,
       ⟨"tl", none, some (tlPayload "2025-11-10" "2025-11-22")⟩] }

example : (item_risk cfgNoRoles d1120 itemA).reasons
    = ["blocked/stuck in one or more tracks"] := by decide
example : (item_risk cfgFull d1120 itemB).reasons = [] := by decide
example : (item_risk cfgFull d1120 itemC).reasons
    = ["near due (≤3 days) and not done", "high priority near due and not done"] := by decide
example : done_all (item_risk cfgFull d1120 itemB) = true := by decide
example :
    (build_context "Sprint 4" d1120
        [item_risk cfgNoRoles d1120 itemA, item_risk cfgFull d1120 itemB,
         item_risk cfgFull d1120 itemC]
        [item_risk cfgNoRoles d1120 itemA, item_risk cfgFull d1120 itemC]).map
      (fun c => (c.timeline.sprint_end, c.timeline.status, c.timeline.late_items))
      = some ("2025-11-22", "ongoing", []) := by decide

/-! ## Helper lemmas -/

theorem strMem_iff (s : String) (l : List String) : strMem s l = true ↔ s ∈ l := by
  unfold strMem
  simp [List.any_eq_true]

theorem mem_flag_singleton {a s : String} {c : Bool} :
    a ∈ (if c then [s] else ([] : List String)) ↔ c = true ∧ a = s := by
  cases c <;> simp

/-- Membership in the `reasons` list, one disjunct per source predicate,
in declaration order. -/
theorem mem_reasons_iff (cfg : Config) (today : Date) (item : Item) (a : String) :
    a ∈ reasons_of cfg today item ↔
      (blocked_cond cfg item = true ∧ a = "blocked/stuck in one or more tracks") ∨
      (missing_role_cond cfg.PRODUCT_OWNER_COL_ID
          (parse_people (col_value item cfg.PRODUCT_OWNER_COL_ID)) = true ∧
        a = "missing Product owner") ∨
      (missing_role_cond cfg.DESIGNER_COL_ID
          (parse_people (col_value item cfg.DESIGNER_COL_ID)) = true ∧
        a = "missing Designer") ∨
      (missing_role_cond cfg.DEVELOPER_COL_ID
          (parse_people (col_value item cfg.DEVELOPER_COL_ID)) = true ∧
        a = "missing Developer") ∨
      (overdue_cond cfg today item = true ∧ a = "timeline end passed") ∨
      (near_due_cond cfg today item = true ∧ a = "near due (≤3 days) and not done") ∨
      (high_near_cond cfg today item = true ∧ a = "high priority near due and not done") := by
  unfold reasons_of
  simp only [List.mem_append, mem_flag_singleton, or_assoc]

theorem mem_reasons_overdue (cfg : Config) (today : Date) (item : Item) :
    "timeline end passed" ∈ reasons_of cfg today item ↔
      overdue_cond cfg today item = true := by
  rw [mem_reasons_iff]
  simp

theorem mem_reasons_near (cfg : Config) (today : Date) (item : Item) :
    "near due (≤3 days) and not done" ∈ reasons_of cfg today item ↔
      near_due_cond cfg today item = true := by
  rw [mem_reasons_iff]
  simp

theorem mem_reasons_missing_po (cfg : Config) (today : Date) (item : Item) :
    "missing Product owner" ∈ reasons_of cfg today item ↔
      missing_role_cond cfg.PRODUCT_OWNER_COL_ID
        (parse_people (col_value item cfg.PRODUCT_OWNER_COL_ID)) = true := by
  rw [mem_reasons_iff]
  simp

theorem mem_reasons_missing_designer (cfg : Config) (today : Date) (item : Item) :
    "missing Designer" ∈ reasons_of cfg today item ↔
      missing_role_cond cfg.DESIGNER_COL_ID
        (parse_people (col_value item cfg.DESIGNER_COL_ID)) = true := by
  rw [mem_reasons_iff]
  simp

theorem mem_reasons_missing_developer (cfg : Config) (today : Date) (item : Item) :
    "missing Developer" ∈ reasons_of cfg today item ↔
      missing_role_cond cfg.DEVELOPER_COL_ID
        (parse_people (col_value item cfg.DEVELOPER_COL_ID)) = true := by
  rw [mem_reasons_iff]
  simp

theorem item_risk_reasons (cfg : Config) (today : Date) (item : Item) :
    (item_risk cfg today item).reasons = reasons_of cfg today item := rfl

/-! ## Claim C1 (overdue reason) -/

/-- Item with mixed track statuses: product "done", dev "stuck", design
empty; all roles assigned; timeline end 2025-11-15 (before today). -/
def itemMixed : Item :=
  { id := "9", name := "Mixed"
    column_values :=
      [⟨"pstat", some "Done", none⟩,
       ⟨"devstat", some "stuck", none⟩,
       ⟨"po", none, some onePerson⟩,
       ⟨"des", none, some onePerson⟩,
       ⟨"dev", none, some onePerson⟩,
       ⟨"tl", none, some (tlPayload "2025-11-01" "2025-11-15")⟩] }

/-- C1 counterexample: the claim's condition ("timeline end exists, is
strictly before today, and not all present track statuses are
done-aliases") holds for `itemMixed` evaluated at today = 2025-11-20 —
its present statuses are `["done", "stuck"]`, which are not all done —
yet the evaluator does **not** append "timeline end passed", because the
source tests `not any(s in DONE_STATUS_ALIASES ...)` and the "done"
product status suffices to suppress the reason. -/
theorem overdue_claim_counterexample :
    tl_end_of cfgFull itemMixed = some ⟨2025, 11, 15⟩ ∧
    dateLt ⟨2025, 11, 15⟩ d1120 = true ∧
    (track_statuses_of cfgFull itemMixed).filter (fun s => s != "") = ["done", "stuck"] ∧
    ¬ (∀ s ∈ (track_statuses_of cfgFull itemMixed).filter (fun s => s != ""),
        s ∈ DONE_STATUS_ALIASES) ∧
    "timeline end passed" ∉ (item_risk cfgFull d1120 itemMixed).reasons := by
  decide

/-- C1 (amended): the reason "timeline end passed" is appended iff the
item's timeline end exists, is strictly before today, and **no** track
status among {product, design, dev} (empty or not) is in the done-alias
set — i.e. the suppression test is `not any(... done ...)`, not
"not all present are done". -/
theorem overdue_reason_iff_no_done_status (cfg : Config) (today : Date) (item : Item) :
    "timeline end passed" ∈ (item_risk cfg today item).reasons ↔
      (∃ e, tl_end_of cfg item = some e ∧ e.toOrdinal < today.toOrdinal) ∧
      ∀ s ∈ track_statuses_of cfg item, s ∉ DONE_STATUS_ALIASES := by
  rw [item_risk_reasons, mem_reasons_overdue]
  unfold overdue_cond any_done dateLt
  cases htl : tl_end_of cfg item with
  | none => simp
  | some e =>
    simp only [Bool.and_eq_true, decide_eq_true_eq, Bool.not_eq_true', List.any_eq_false,
      Option.some.injEq]
    constructor
    · rintro ⟨hlt, hnd⟩
      refine ⟨⟨e, rfl, hlt⟩, fun s hs hmem => ?_⟩
      have := hnd s hs
      rw [← strMem_iff s DONE_STATUS_ALIASES] at hmem
      exact absurd hmem (by simp [this])
    · rintro ⟨⟨e', he', hlt⟩, hnd⟩
      subst he'
      refine ⟨hlt, fun s hs => ?_⟩
      have := hnd s hs
      rw [← strMem_iff s DONE_STATUS_ALIASES] at this
      simpa using this

/-- C1 amended-claim witness: for an all-empty-status item with a past
timeline end, the amended condition holds and the reason is present. -/
theorem overdue_reason_iff_no_done_status_witness :
    "timeline end passed" ∈ (item_risk cfgFull d1120
      ⟨"7", "Late", [⟨"tl", none, some (tlPayload "2025-11-01" "2025-11-15")⟩,
        ⟨"po", none, some onePerson⟩, ⟨"des", none, some onePerson⟩,
        ⟨"dev", none, some onePerson⟩]⟩).reasons :=
  (overdue_reason_iff_no_done_status cfgFull d1120 _).mpr
    ⟨⟨⟨2025, 11, 15⟩, by decide, by decide⟩, by decide⟩

/-! ## Claim C8 (missing-role reasons) -/

/-- C8: for each role in {productOwner, designer, developer}, the
"missing <Role>" reason is appended iff the role's column id is
configured (truthy) and the parsed assignee list is empty.  In
particular an unconfigured role (`optTruthy ... = false`) can never
fire, and evaluation is a total function (never raises). -/
theorem missing_role_reasons_spec (cfg : Config) (today : Date) (item : Item) :
    ("missing Product owner" ∈ (item_risk cfg today item).reasons ↔
       optTruthy cfg.PRODUCT_OWNER_COL_ID = true ∧
       parse_people (col_value item cfg.PRODUCT_OWNER_COL_ID) = []) ∧
    ("missing Designer" ∈ (item_risk cfg today item).reasons ↔
       optTruthy cfg.DESIGNER_COL_ID = true ∧
       parse_people (col_value item cfg.DESIGNER_COL_ID) = []) ∧
    ("missing Developer" ∈ (item_risk cfg today item).reasons ↔
       optTruthy cfg.DEVELOPER_COL_ID = true ∧
       parse_people (col_value item cfg.DEVELOPER_COL_ID) = []) := by
  refine ⟨?_, ?_, ?_⟩
  · rw [item_risk_reasons, mem_reasons_missing_po]
    unfold missing_role_cond
    simp [List.isEmpty_iff]
  · rw [item_risk_reasons, mem_reasons_missing_designer]
    unfold missing_role_cond
    simp [List.isEmpty_iff]
  · rw [item_risk_reasons, mem_reasons_missing_developer]
    unfold missing_role_cond
    simp [List.isEmpty_iff]

/-- C8 witness: with all role columns configured and an item carrying no
people payloads (item A), all three role predicates fire. -/
theorem missing_role_reasons_spec_witness :
    "missing Product owner" ∈ (item_risk cfgFull d1120 itemA).reasons :=
  (missing_role_reasons_spec cfgFull d1120 itemA).1.mpr ⟨by decide, by decide⟩

/-! ## Claim C9 (near-due window has no lower bound) -/

/-- C9: whenever a timeline end exists with `(end - today).days ≤ 3` —
including negative distances — and no track status is a done-alias (the
evaluator's "not fully done" test), the near-due reason is appended;
consequently an item whose end is also strictly before today collects
both "timeline end passed" and "near due (≤3 days) and not done". -/
theorem near_due_window_spec (cfg : Config) (today : Date) (item : Item) :
    (∀ e, tl_end_of cfg item = some e → daysDiff e today ≤ 3 →
       any_done cfg item = false →
       "near due (≤3 days) and not done" ∈ (item_risk cfg today item).reasons) ∧
    (∀ e, tl_end_of cfg item = some e → e.toOrdinal < today.toOrdinal →
       any_done cfg item = false →
       "timeline end passed" ∈ (item_risk cfg today item).reasons ∧
       "near due (≤3 days) and not done" ∈ (item_risk cfg today item).reasons) := by
  constructor
  · intro e he hdiff hnd
    rw [item_risk_reasons, mem_reasons_near]
    unfold near_due_cond
    rw [he, hnd]
    simp [hdiff]
  · intro e he hlt hnd
    have hdiff : daysDiff e today ≤ 3 := by
      unfold daysDiff
      omega
    constructor
    · rw [item_risk_reasons, mem_reasons_overdue]
      unfold overdue_cond
      rw [he, hnd]
      simp [dateLt, hlt]
    · rw [item_risk_reasons, mem_reasons_near]
      unfold near_due_cond
      rw [he, hnd]
      simp [hdiff]

/-- C9 witness: an already-overdue, not-done item (end 2025-11-15,
today 2025-11-20, distance −5 ≤ 3) collects both reasons. -/
theorem near_due_window_spec_witness :
    "timeline end passed" ∈ (item_risk cfgFull d1120
      ⟨"8", "Overdue", [⟨"tl", none, some (tlPayload "2025-11-01" "2025-11-15")⟩,
        ⟨"po", none, some onePerson⟩, ⟨"des", none, some onePerson⟩,
        ⟨"dev", none, some onePerson⟩]⟩).reasons ∧
    "near due (≤3 days) and not done" ∈ (item_risk cfgFull d1120
      ⟨"8", "Overdue", [⟨"tl", none, some (tlPayload "2025-11-01" "2025-11-15")⟩,
        ⟨"po", none, some onePerson⟩, ⟨"des", none, some onePerson⟩,
        ⟨"dev", none, some onePerson⟩]⟩).reasons :=
  (near_due_window_spec cfgFull d1120 _).2 ⟨2025, 11, 15⟩ (by decide) (by decide) (by decide)

/-! ## Claim C2 (timeline parser bound independence) -/

/-- C2 counterexample: a payload whose start parses as `YYYY-MM-DD` but
whose end is malformed yields `(None, None)` — the claimed result
"(start present, end absent)" does not occur, because the single
`try/except` around both bounds discards the already-parsed start. -/
theorem timeline_malformed_end_wipes_start :
    parse_ymd "2025-11-03" = some ⟨2025, 11, 3⟩ ∧
    parse_timeline_value
        (some (Json.obj [("from", Json.str "2025-11-03"), ("to", Json.str "garbage")]))
      = (none, none) ∧
    parse_timeline_value
        (some (Json.obj [("from", Json.str "2025-11-03"), ("to", Json.str "garbage")]))
      ≠ (some ⟨2025, 11, 3⟩, none) := by
  decide

/-- C2 (amended): the parser never raises (it is a total function); a
bound that is absent/falsy makes only that bound `none` while the other
bound is kept, but a bound whose parse *raises* (a malformed date
string, or a truthy non-string) makes **both** bounds `none`. -/
theorem timeline_bounds_amended (kvs : List (String × Json)) :
    (∀ os oe, parseBound (startJson kvs) = some os → parseBound (endJson kvs) = some oe →
       parse_timeline_value (some (Json.obj kvs)) = (os, oe)) ∧
    ((parseBound (startJson kvs) = none ∨ parseBound (endJson kvs) = none) →
       parse_timeline_value (some (Json.obj kvs)) = (none, none)) := by
  have hred : parse_timeline_value (some (Json.obj kvs)) =
      (match parseBound (startJson kvs), parseBound (endJson kvs) with
       | some s, some e => (s, e)
       | _, _ => (none, none)) := rfl
  constructor
  · intro os oe hs he
    rw [hred, hs, he]
  · intro h
    rw [hred]
    rcases h with h | h
    · rw [h]
    · rw [h]
      cases parseBound (startJson kvs) <;> rfl

/-- C2 amended-claim witness: a payload with a well-formed start and no
end bound at all parses to (start, none). -/
theorem timeline_bounds_amended_witness :
    parse_timeline_value (some (Json.obj [("from", Json.str "2025-11-03")]))
      = (some ⟨2025, 11, 3⟩, none) :=
  (timeline_bounds_amended [("from", Json.str "2025-11-03")]).1
    (some ⟨2025, 11, 3⟩) none (by decide) (by decide)

/-! ## Claim C3 (sprint timeline status) -/

/-- C3: the timeline verdict is a pure function of sprint end, today,
done_items and total_items; it is "unknown" iff the sprint end is
undefined, "ongoing" iff the end is defined and today is strictly before
it, "met"/"missed" as `done_items == total_items and total_items > 0`
when today is at or after the end, and never "met" with zero items. -/
theorem sprint_timeline_status_spec (se : Option Date) (today : Date) (di ti : Nat) :
    (sprint_timeline_status se today di ti = "unknown" ↔ se = none) ∧
    (sprint_timeline_status se today di ti = "ongoing" ↔
       ∃ e, se = some e ∧ today.toOrdinal < e.toOrdinal) ∧
    (∀ e, se = some e → ¬ today.toOrdinal < e.toOrdinal →
       sprint_timeline_status se today di ti = if di = ti ∧ 0 < ti then "met" else "missed") ∧
    (ti = 0 → sprint_timeline_status se today di ti ≠ "met") := by
  refine ⟨?_, ?_, ?_, ?_⟩
  · cases se with
    | none => simp [sprint_timeline_status]
    | some e =>
      unfold sprint_timeline_status dateLt
      by_cases hlt : today.toOrdinal < e.toOrdinal
      · simp [hlt]
      · by_cases hc : di = ti ∧ 0 < ti <;> simp [hlt, hc]
  · cases se with
    | none => simp [sprint_timeline_status]
    | some e =>
      unfold sprint_timeline_status dateLt
      by_cases hlt : today.toOrdinal < e.toOrdinal
      · simp [hlt]
      · by_cases hc : di = ti ∧ 0 < ti <;> simp [hlt, hc]
  · intro e he hlt
    subst he
    unfold sprint_timeline_status dateLt
    simp [hlt]
  · intro h0
    subst h0
    cases se with
    | none => simp [sprint_timeline_status]
    | some e =>
      unfold sprint_timeline_status dateLt
      by_cases hlt : today.toOrdinal < e.toOrdinal
      · simp [hlt]
      · have hc : ¬ (di = 0 ∧ 0 < 0) := by omega
        simp [hlt, hc]

/-- C3 witness: end 2025-11-22, today 2025-11-20 → "ongoing". -/
theorem sprint_timeline_status_spec_witness :
    sprint_timeline_status (some ⟨2025, 11, 22⟩) d1120 1 3 = "ongoing" :=
  (sprint_timeline_status_spec (some ⟨2025, 11, 22⟩) d1120 1 3).2.1.mpr
    ⟨⟨2025, 11, 22⟩, rfl, by decide⟩

/-! ## Claim C4 (`done_all`) -/

/-- C4: `done_all` is false when all three track statuses are empty;
when at least one is non-empty it is true iff every non-empty status is
a done-alias. -/
theorem done_all_spec (r : RiskAssessment) :
    (r.product_status = "" ∧ r.design_status = "" ∧ r.dev_status = "" →
       done_all r = false) ∧
    ([r.product_status, r.design_status, r.dev_status].filter (fun s => s != "") ≠ [] →
       (done_all r = true ↔
         ∀ s ∈ [r.product_status, r.design_status, r.dev_status].filter (fun s => s != ""),
           s ∈ DONE_STATUS_ALIASES)) := by
  constructor
  · rintro ⟨h1, h2, h3⟩
    unfold done_all
    simp [h1, h2, h3]
  · intro hne
    unfold done_all
    rw [if_neg (by simpa [List.isEmpty_iff] using hne)]
    simp only [List.all_eq_true, strMem_iff]

/-- C4 witness: all-empty statuses give `done_all = false`. -/
theorem done_all_spec_witness :
    done_all ⟨"e", "E", "", "", "", "", "", [], false⟩ = false :=
  (done_all_spec ⟨"e", "E", "", "", "", "", "", [], false⟩).1 ⟨rfl, rfl, rfl⟩

/-! ## Claim C5 (late items) -/

/-- The per-item lateness condition stated by the spec: a parseable,
non-empty timeline end strictly before today, and not `done_all`. -/
def lateCondSpec (today : Date) (r : RiskAssessment) : Bool :=
  match parse_date_text r.timeline_end with
  | some d => dateLt d today && !done_all r
  | none => false

/-- One step of the `late_items` loop equals a conditional on
`lateCondSpec`. -/
theorem late_step_eq (today : Date) (r : RiskAssessment) :
    (if r.timeline_end = "" then none
     else
       match parse_date_text r.timeline_end with
       | none => none
       | some d => if dateLt d today && !done_all r then some (lateEntry r) else none)
      = (if lateCondSpec today r then some (lateEntry r) else none) := by
  by_cases hemp : r.timeline_end = ""
  · have hpn : parse_date_text r.timeline_end = none := by
      unfold parse_date_text
      rw [if_pos hemp]
    rw [if_pos hemp]
    unfold lateCondSpec
    rw [hpn]
    rfl
  · rw [if_neg hemp]
    unfold lateCondSpec
    cases hd : parse_date_text r.timeline_end with
    | none => rfl
    | some d => rfl

/-- The `late_items` loop is exactly a filter by `lateCondSpec` followed
by the projection to the late-item record. -/
theorem late_items_of_eq_filter (today : Date) (items : List RiskAssessment) :
    late_items_of today items
      = (items.filter (fun r => lateCondSpec today r)).map lateEntry := by
  induction items with
  | nil => rfl
  | cons r rs ih =>
    show (late_items_of today (r :: rs)) = _
    unfold late_items_of
    unfold late_items_of at ih
    rw [List.filterMap_cons, List.filter_cons, ih, late_step_eq]
    by_cases hc : lateCondSpec today r = true
    · rw [if_pos hc, if_pos hc, List.map_cons]
    · rw [if_neg hc, if_neg hc]

/-- An assessment that is late and not done (empty statuses, end
2025-11-15). -/
def rLate : RiskAssessment :=
  ⟨"x1", "X", "", "", "", "", "2025-11-15", [], false⟩

/-- An assessment with a future end (2025-11-25). -/
def rFuture : RiskAssessment :=
  ⟨"x2", "Y", "", "", "", "", "2025-11-25", [], false⟩

/-- C5: `lateItems` contains exactly the items with a present
(parseable) timeline end strictly before today and `done_all` false,
in item order; and this membership is independent of the sprint-level
status: in the concrete run below the sprint is still "ongoing" (its
inferred end is 2025-11-25, after today) while `rLate` already appears
in `late_items`. -/
theorem late_items_spec :
    (∀ (today : Date) (items : List RiskAssessment),
       late_items_of today items
         = (items.filter (fun r => lateCondSpec today r)).map lateEntry) ∧
    (build_context "g" d1120 [rLate, rFuture] []).map
        (fun c => (c.timeline.status, c.timeline.late_items))
      = some ("ongoing", [lateEntry rLate]) :=
  ⟨late_items_of_eq_filter, by decide⟩

/-! ## Claim C6 (concrete scenario, today = 2025-11-20) -/

/-- C6: the full scenario.  Item A (dev "stuck", no other fields, role
columns not configured) is risky with exactly the blocked reason; item B
(all roles present, all statuses "done", end 2025-11-15) is `done_all`,
gets no overdue reason and is not risky; item C (priority "high", end
2025-11-22, empty statuses, roles present) gets exactly the near-due and
high-priority reasons in that order; the sprint over {A, B, C} has end
2025-11-22, status "ongoing" and no late items. -/
theorem scenario_2025_11_20 :
    (item_risk cfgNoRoles d1120 itemA).reasons = ["blocked/stuck in one or more tracks"] ∧
    (item_risk cfgNoRoles d1120 itemA).risky = true ∧
    done_all (item_risk cfgFull d1120 itemB) = true ∧
    "timeline end passed" ∉ (item_risk cfgFull d1120 itemB).reasons ∧
    (item_risk cfgFull d1120 itemB).risky = false ∧
    (item_risk cfgFull d1120 itemC).reasons
      = ["near due (≤3 days) and not done", "high priority near due and not done"] ∧
    (item_risk cfgFull d1120 itemC).risky = true ∧
    (build_context "Sprint 4" d1120
        [item_risk cfgNoRoles d1120 itemA, item_risk cfgFull d1120 itemB,
         item_risk cfgFull d1120 itemC]
        [item_risk cfgNoRoles d1120 itemA, item_risk cfgFull d1120 itemC]).map
      (fun c => (c.timeline.sprint_end, c.timeline.status, c.timeline.late_items))
      = some ("2025-11-22", "ongoing", []) := by
  decide

/-! ## Claims C7 and C10 (context shape) -/

/-- Shape of a successfully built context: its `top_risks` is the first
ten of the risks list, its status is the four-way verdict on the
done/total counters, and its late items are the late-items loop. -/
theorem build_context_fields (g : String) (today : Date)
    (items risks : List RiskAssessment) (ctx : SprintContext)
    (h : build_context g today items risks = some ctx) :
    ∃ se : Option Date,
      ctx.top_risks = risks.take 10 ∧
      ctx.timeline.status
        = sprint_timeline_status se today (items.countP (fun r => done_all r)) items.length ∧
      ctx.timeline.late_items = late_items_of today items := by
  unfold build_context at h
  cases hg : sprint_end_guard (tl_dates_of items) with
  | none =>
    rw [hg] at h
    exact Option.noConfusion h
  | some se =>
    rw [hg] at h
    refine ⟨se, ?_⟩
    injection h with h
    subst h
    exact ⟨rfl, rfl, rfl⟩

/-- C7: feeding `build_context` the program's risks list (the risky
filter of the assessed items, in encounter order), `topRisks` is exactly
that filter truncated to its first ten entries — a sublist of the items
in original order, never longer than 10, with no sorting applied. -/
theorem top_risks_spec (g : String) (today : Date) (items : List RiskAssessment)
    (ctx : SprintContext)
    (h : build_context g today items (items.filter (fun r => r.risky)) = some ctx) :
    ctx.top_risks = (items.filter (fun r => r.risky)).take 10 ∧
    List.Sublist ctx.top_risks items ∧
    ctx.top_risks.length ≤ 10 := by
  obtain ⟨se, h1, -, -⟩ := build_context_fields g today items _ ctx h
  refine ⟨h1, ?_, ?_⟩
  · rw [h1]
    exact (List.take_sublist 10 _).trans (List.filter_sublist _)
  · rw [h1]
    exact List.length_take_le 10 _

/-- A risky assessment used to exercise the truncation. -/
def rRisky : RiskAssessment :=
  ⟨"r", "R", "", "", "", "", "", ["blocked/stuck in one or more tracks"], true⟩

/-- The context produced for twelve copies of `rRisky`. -/
def ctxRisky : SprintContext :=
  ⟨"g", ⟨12, 12, 0, 0, 0⟩, List.replicate 10 rRisky, ⟨"", "unknown", []⟩⟩

/-- C7 witness: with twelve risky items, `topRisks` is the 10-element
truncation. -/
theorem top_risks_spec_witness :
    ctxRisky.top_risks = ((List.replicate 12 rRisky).filter (fun r => r.risky)).take 10 ∧
    List.Sublist ctxRisky.top_risks (List.replicate 12 rRisky) ∧
    ctxRisky.top_risks.length ≤ 10 :=
  top_risks_spec "g" d1120 (List.replicate 12 rRisky) ctxRisky (by decide)

/-- "met" forces `done_items = total_items > 0`. -/
theorem status_met_imp (se : Option Date) (today : Date) (di ti : Nat)
    (h : sprint_timeline_status se today di ti = "met") : di = ti ∧ 0 < ti := by
  cases se with
  | none => simp [sprint_timeline_status] at h
  | some e =>
    simp only [sprint_timeline_status] at h
    by_cases hlt : dateLt today e
    · rw [if_pos hlt] at h
      simp at h
    · rw [if_neg hlt] at h
      by_cases hc : di = ti ∧ 0 < ti
      · exact hc
      · rw [if_neg hc] at h
        simp at h

/-- If every item is `done_all`, the `late_items` loop keeps nothing. -/
theorem late_items_nil_of_all_done (today : Date) (items : List RiskAssessment)
    (hall : ∀ r ∈ items, done_all r = true) : late_items_of today items = [] := by
  unfold late_items_of
  rw [List.filterMap_eq_nil_iff]
  intro r hr
  have hc : lateCondSpec today r = false := by
    unfold lateCondSpec
    cases parse_date_text r.timeline_end with
    | none => rfl
    | some d => simp [hall r hr]
  rw [late_step_eq, hc]
  rfl

/-- C10: a context whose timeline status is "met" has an empty
`late_items` list — "met" requires `done_items = total_items`, i.e.
every item `done_all`, and no `done_all` item survives the late-items
filter. -/
theorem met_implies_no_late_items (g : String) (today : Date)
    (items risks : List RiskAssessment) (ctx : SprintContext)
    (h : build_context g today items risks = some ctx)
    (hmet : ctx.timeline.status = "met") :
    ctx.timeline.late_items = [] := by
  obtain ⟨se, -, hst, hlate⟩ := build_context_fields g today items risks ctx h
  rw [hst] at hmet
  obtain ⟨hdt, hpos⟩ := status_met_imp se today _ _ hmet
  have hall : ∀ r ∈ items, done_all r = true := by
    intro r hr
    exact List.countP_eq_length.mp hdt r hr
  rw [hlate]
  exact late_items_nil_of_all_done today items hall

/-- A fully done assessment with a past end date. -/
def rDone : RiskAssessment :=
  ⟨"z", "Z", "done", "done", "done", "", "2025-11-15", [], false⟩

/-- The context produced for the single item `rDone` at 2025-11-20. -/
def ctxMet : SprintContext :=
  ⟨"g", ⟨1, 0, 1, 0, 0⟩, [], ⟨"2025-11-15", "met", []⟩⟩

/-- C10 witness: a "met" sprint (one fully done item, end passed) has no
late items. -/
theorem met_implies_no_late_items_witness :
    ctxMet.timeline.late_items = [] :=
  met_implies_no_late_items "g" d1120 [rDone] [] ctxMet (by decide) (by decide)
